import Mathlib

/-!
Shallow embedding of the `SearchBar` widget from `src/components/SearchBar.tsx`.

The component keeps three shared values (`containerWidth`, `cancelButtonWidth`,
`isFocused`), a ref to the native text input, and a handful of callbacks taken
from its props.  We model:

* props as a structure, with each optional callback represented by a `Bool`
  presence flag (the only observable aspect of a callback here is whether it is
  invoked, recorded in an event trace);
* the shared animated value `isFocused` as an `AnimState`: its current value
  plus an optional pending `withTiming` transition (target, duration), since a
  newly started timing animation replaces any in-flight one;
* each handler as a function from props and widget state to the new state and
  the ordered list of externally observable events it produces (callback
  invocations, animation starts, focus/blur requests on the native input).

Widths and the focus progress are rationals; the source works with
double-precision layout numbers and never does anything that distinguishes
them from exact arithmetic here.
-/

/-- Events a handler of the widget can emit, in source order: calls of the
host-supplied callbacks, the start of a timing animation on `isFocused`,
and imperative focus/blur requests on the native text input. -/
inductive Event where
  | changeText (t : Option String)
  | callOnCancel
  | callOnFocus
  | callOnBlur
  | callOnSubmit
  | startAnim (target : ℚ) (duration : Nat)
  | blurRequest
  | focusRequest
deriving DecidableEq, Repr

/-- The props of `SearchBar` (`SearchBarProps`, lines 22-33 of the source).
Optional callbacks are modelled by their presence; `containerStyle` carries no
behavior and is omitted. -/
structure SearchBarProps where
  onCancel : Bool
  onFocus : Bool
  onBlur : Bool
  onSubmitEditing : Bool
  placeholder : Option String
  animationDuration : Option Nat
  value : Option String
  autoFocus : Bool
deriving DecidableEq, Repr

/-- A reanimated shared value driven by `withTiming`: the current value and the
pending timing animation (target and duration), if one is in flight. -/
structure AnimState where
  val : ℚ
  pending : Option (ℚ × Nat)
deriving DecidableEq, Repr

/-- Assigning `withTiming(target, duration)` to a shared value: a new timing
animation toward `target` starts, replacing any in-flight one (last transition
wins; values do not stack). -/
def withTiming (a : AnimState) (target : ℚ) (dur : Nat) : AnimState :=
  { a with pending := some (target, dur) }

/-- The host animation scheduler letting the pending timing animation run to
completion: the shared value reaches the target and nothing is in flight. -/
def settle (a : AnimState) : AnimState :=
  match a.pending with
  | some (t, _) => { val := t, pending := none }
  | none => a

/-- The widget's per-instance state: the shared values `containerWidth`
(line 61), `cancelButtonWidth` (line 71), `isFocused` (line 86), and whether
the native text input currently has focus. -/
structure SearchBarState where
  containerWidth : ℚ
  cancelButtonWidth : ℚ
  isFocused : AnimState
  inputFocused : Bool
deriving DecidableEq, Repr

/-- The state right after mount: all shared values start at 0
(`useSharedValue(0)`), and the input is not focused. -/
def initialState : SearchBarState :=
  { containerWidth := 0
    cancelButtonWidth := 0
    isFocused := { val := 0, pending := none }
    inputFocused := false }

/-- JS optional invocation (`cb?.(e)` or `if (cb) cb()`): the call event is
emitted exactly when the callback is present. -/
def optCall (present : Bool) (e : Event) : List Event :=
  if present then [e] else []

/-- `onPressClear` (lines 49-51): calls `onChangeText(undefined)` and nothing
else; the widget's state is untouched. -/
def onPressClear (_p : SearchBarProps) (s : SearchBarState) :
    SearchBarState × List Event :=
  (s, [Event.changeText none])

/-- `onPressCancel` (lines 53-59): calls `onChangeText(undefined)`, then
`onCancel()` if provided, then requests blur on the native text input. -/
def onPressCancel (p : SearchBarProps) (s : SearchBarState) :
    SearchBarState × List Event :=
  (s, [Event.changeText none] ++ optCall p.onCancel Event.callOnCancel
        ++ [Event.blurRequest])

/-- `onLayout` (lines 63-68): every layout pass of the outer container stores
the reported width into `containerWidth`. -/
def onLayout (w : ℚ) (s : SearchBarState) : SearchBarState :=
  { s with containerWidth := w }

/-- `onButtonLayout` (lines 72-79): `if (!cancelButtonWidth.value)` store the
reported width.  JS `!x` on a number is true exactly when `x` is zero, so the
width is stored whenever the current `cancelButtonWidth` is zero. -/
def onButtonLayout (w : ℚ) (s : SearchBarState) : SearchBarState :=
  if s.cancelButtonWidth = 0 then { s with cancelButtonWidth := w } else s

/-- Folding a sequence of cancel-button layout passes through
`onButtonLayout`. -/
def runButtonLayouts (s : SearchBarState) (ws : List ℚ) : SearchBarState :=
  ws.foldl (fun s w => onButtonLayout w s) s

/-- `onInputFocus` (lines 88-95): invoke `onFocus?.(e)` first, then assign
`withTiming(1, 300)` to `isFocused`; the native input now has focus. -/
def onInputFocus (p : SearchBarProps) (s : SearchBarState) :
    SearchBarState × List Event :=
  ({ s with isFocused := withTiming s.isFocused 1 300, inputFocused := true },
   optCall p.onFocus Event.callOnFocus ++ [Event.startAnim 1 300])

/-- `onInputBlur` (lines 97-104): invoke `onBlur?.(e)` first, then assign
`withTiming(0, 300)` to `isFocused`; the native input no longer has focus. -/
def onInputBlur (p : SearchBarProps) (s : SearchBarState) :
    SearchBarState × List Event :=
  ({ s with isFocused := withTiming s.isFocused 0 300, inputFocused := false },
   optCall p.onBlur Event.callOnBlur ++ [Event.startAnim 0 300])

/-- The submit path (line 147): the optional `onSubmitEditing` prop is passed
straight through to the text input, so a submit invokes it exactly when it is
present, with no other effect. -/
def onSubmitForward (p : SearchBarProps) (s : SearchBarState) :
    SearchBarState × List Event :=
  (s, optCall p.onSubmitEditing Event.callOnSubmit)

/-- The constant `MARGIN_LEFT_BUTTON` (line 187). -/
def MARGIN_LEFT_BUTTON : ℚ := 10

/-- Reanimated's `interpolate` on a single input segment with the default
(extend) extrapolation: the line through `(inMin, outMin)` and
`(inMax, outMax)` evaluated at `v`. -/
def interpolate (v inMin inMax outMin outMax : ℚ) : ℚ :=
  outMin + (v - inMin) * (outMax - outMin) / (inMax - inMin)

/-- The animated width of the input container (`animatedStyle`, lines
108-118): `interpolate(isFocused, [0, 1], [containerWidth,
containerWidth - cancelButtonWidth - MARGIN_LEFT_BUTTON])`. -/
def effectiveWidth (cw bw v : ℚ) : ℚ :=
  interpolate v 0 1 cw (cw - bw - MARGIN_LEFT_BUTTON)

/-- The border width of the input container (line 115): `isFocused` itself. -/
def borderWidth (v : ℚ) : ℚ := v

/-- `wrapperStyle` (lines 120-124): `opacity: containerWidth.value ? 1 : 0`;
a JS number is truthy exactly when it is non-zero. -/
def wrapperOpacity (cw : ℚ) : ℚ :=
  if cw = 0 then 0 else 1

/-- JS truthiness of the `value` prop (a string or `undefined`): `undefined`
and the empty string are falsy, every other string is truthy. -/
def jsTruthyStr : Option String → Bool
  | none => false
  | some s => !(s == "")

/-- The render condition of the clear affordance (lines 151-161):
`{value ? <Pressable .../> : null}`. -/
def clearRendered (p : SearchBarProps) : Bool :=
  jsTruthyStr p.value

/-- Modelled from the spec: the spec's "current text is non-empty", with the
current search text being the host-controlled `value` prop (spec section 3:
the widget does not own query state; the text input is uncontrolled after
mount).  Used to compare the rendered condition against the spec's words. -/
def textNonEmpty (v : Option String) : Prop :=
  ∃ s, v = some s ∧ s ≠ ""

instance (v : Option String) : Decidable (textNonEmpty v) := by
  unfold textNonEmpty
  cases v with
  | none => exact .isFalse (by simp)
  | some s => exact decidable_of_iff (s ≠ "") (by simp)

/-- A focus-dimension input event: the text field gaining or losing focus. -/
inductive FocusEvent where
  | focus
  | blur
deriving DecidableEq, Repr

/-- The state transition a focus or blur event causes (the state part of
`onInputFocus` / `onInputBlur`). -/
def stepFocus (p : SearchBarProps) (s : SearchBarState) : FocusEvent → SearchBarState
  | FocusEvent.focus => (onInputFocus p s).1
  | FocusEvent.blur => (onInputBlur p s).1

/-- Running a sequence of focus/blur events through the widget. -/
def runFocus (p : SearchBarProps) (s : SearchBarState) (evs : List FocusEvent) :
    SearchBarState :=
  evs.foldl (stepFocus p) s

/-- The animation target a focus or blur event aims `isFocused` at. -/
def targetOf : FocusEvent → ℚ
  | FocusEvent.focus => 1
  | FocusEvent.blur => 0

/-- Recognizer for animation-start events, used to talk about the durations a
handler uses. -/
def isStartAnim : Event → Bool
  | Event.startAnim _ _ => true
  | _ => false

/-- A props record with every optional callback provided and a given `value`,
used to instantiate the theorems below at concrete inputs. -/
def mkProps (v : Option String) : SearchBarProps :=
  { onCancel := true
    onFocus := true
    onBlur := true
    onSubmitEditing := true
    placeholder := none
    animationDuration := none
    value := v
    autoFocus := false }

/-- A props record with no optional callback provided. -/
def noCallbackProps : SearchBarProps :=
  { onCancel := false
    onFocus := false
    onBlur := false
    onSubmitEditing := false
    placeholder := none
    animationDuration := none
    value := none
    autoFocus := false }

/-! ### Helper lemmas -/

theorem effectiveWidth_at_zero (cw bw : ℚ) : effectiveWidth cw bw 0 = cw := by
  simp [effectiveWidth, interpolate, MARGIN_LEFT_BUTTON]

theorem effectiveWidth_at_one (cw bw : ℚ) :
    effectiveWidth cw bw 1 = cw - bw - 10 := by
  unfold effectiveWidth interpolate MARGIN_LEFT_BUTTON
  ring

theorem runFocus_append_single (p : SearchBarProps) (s : SearchBarState)
    (evs : List FocusEvent) (e : FocusEvent) :
    runFocus p s (evs ++ [e]) = stepFocus p (runFocus p s evs) e := by
  simp [runFocus, List.foldl_append]

/-! ### C1: the clear affordance is rendered exactly when the search text is
non-empty -/

/-- C1.  The clear affordance is rendered exactly when the current search text
(the host-controlled `value` prop) is non-empty: the source's truthiness test
on `value` coincides with the spec's "current text is non-empty"; with `value`
unset the affordance is absent, once the text is `"abc"` it is present, and
after clearing (`value` back to absent) it is absent again. -/
theorem clear_affordance_iff_nonempty :
    (∀ p : SearchBarProps, clearRendered p = true ↔ textNonEmpty p.value)
    ∧ clearRendered (mkProps none) = false
    ∧ clearRendered (mkProps (some "abc")) = true
    ∧ clearRendered (mkProps none) = false := by
  refine ⟨fun p => ?_, rfl, by decide, rfl⟩
  cases h : p.value with
  | none => simp [clearRendered, jsTruthyStr, textNonEmpty, h]
  | some s => simp [clearRendered, jsTruthyStr, textNonEmpty, h]

/-! ### C2: cancel presses run change-text, cancel callback, blur, in order -/

/-- C2.  Every press of the cancel affordance performs exactly these steps in
this order: `onChangeText(absent)` first, then `onCancel` exactly when it was
provided, then a blur request on the text field. -/
theorem cancel_press_order :
    ∀ (p : SearchBarProps) (s : SearchBarState),
      (p.onCancel = true →
        (onPressCancel p s).2 =
          [Event.changeText none, Event.callOnCancel, Event.blurRequest])
    ∧ (p.onCancel = false →
        (onPressCancel p s).2 = [Event.changeText none, Event.blurRequest]) := by
  intro p s
  constructor <;> intro h <;> simp [onPressCancel, optCall, h]

/-- Witness for C2 at concrete props providing `onCancel`. -/
theorem cancel_press_order_witness :
    (onPressCancel (mkProps (some "abc")) initialState).2 =
      [Event.changeText none, Event.callOnCancel, Event.blurRequest] :=
  (cancel_press_order (mkProps (some "abc")) initialState).1 rfl

/-! ### C3: capture of the cancel-button width -/

/-- Counterexample to C3 as stated: after the first cancel-button layout pass
(reporting width 0) a width has been stored, yet a subsequent pass reporting
90 changes `cancelButtonWidth` — capture is not "first layout pass only". -/
theorem cancel_width_first_pass_counterexample :
    ¬ ((runButtonLayouts initialState [0, 90]).cancelButtonWidth =
        (runButtonLayouts initialState [0]).cancelButtonWidth) := by
  decide

/-- C3 (amended).  The first non-zero layout measurement wins: while
`cancelButtonWidth` is zero a layout pass stores the reported width, and once
it is non-zero every subsequent layout pass leaves it unchanged even if it
reports a different width; in particular a width captured as 80 stays 80 when
a later pass reports 90. -/
theorem cancel_width_first_nonzero_wins :
    (∀ (s : SearchBarState) (w : ℚ), s.cancelButtonWidth = 0 →
      (onButtonLayout w s).cancelButtonWidth = w)
    ∧ (∀ (s : SearchBarState) (ws : List ℚ), s.cancelButtonWidth ≠ 0 →
        (runButtonLayouts s ws).cancelButtonWidth = s.cancelButtonWidth)
    ∧ (runButtonLayouts initialState [80, 90]).cancelButtonWidth = 80 := by
  refine ⟨fun s w h => by simp [onButtonLayout, h], fun s ws => ?_, by decide⟩
  induction ws generalizing s with
  | nil => intro _; rfl
  | cons w ws ih =>
      intro h
      have hstep : onButtonLayout w s = s := by simp [onButtonLayout, h]
      simpa [runButtonLayouts, hstep] using ih s h

/-- Witness for C3 (amended): a state holding 80 is unchanged by a later pass
reporting 90. -/
theorem cancel_width_first_nonzero_wins_witness :
    (80 : ℚ) ≠ 0
    ∧ (runButtonLayouts (onButtonLayout 80 initialState) [90]).cancelButtonWidth
        = (onButtonLayout 80 initialState).cancelButtonWidth :=
  ⟨by norm_num,
   cancel_width_first_nonzero_wins.2.1 (onButtonLayout 80 initialState) [90]
     (by decide)⟩

/-! ### C4: linear interpolation of the effective width -/

/-- C4.  For all measured widths and every focus progress `v` in `[0, 1]`, the
effective width is the linear interpolation from `containerWidth` at `v = 0`
to `containerWidth - cancelButtonWidth - 10` at `v = 1`; with container width
300 and cancel-button width 80 it is 300 at `v = 0` and 210 at `v = 1`. -/
theorem effective_width_linear :
    (∀ cw bw v : ℚ, 0 ≤ v → v ≤ 1 →
        effectiveWidth cw bw v = (1 - v) * cw + v * (cw - bw - 10))
    ∧ effectiveWidth 300 80 0 = 300
    ∧ effectiveWidth 300 80 1 = 210 := by
  refine ⟨fun cw bw v _ _ => ?_, ?_, ?_⟩
  · simp [effectiveWidth, interpolate, MARGIN_LEFT_BUTTON]
    ring
  · norm_num [effectiveWidth, interpolate, MARGIN_LEFT_BUTTON]
  · norm_num [effectiveWidth, interpolate, MARGIN_LEFT_BUTTON]

/-- Witness for C4 at the midpoint `v = 1/2`. -/
theorem effective_width_linear_witness :
    (0 : ℚ) ≤ 1/2 ∧ (1/2 : ℚ) ≤ 1
    ∧ effectiveWidth 300 80 (1/2) =
        (1 - 1/2) * 300 + (1/2) * (300 - 80 - 10) :=
  ⟨by norm_num, by norm_num,
   effective_width_linear.1 300 80 (1/2) (by norm_num) (by norm_num)⟩

/-! ### C5: callbacks run synchronously before the animation starts -/

/-- C5.  On a focus event the handler invokes `onFocus` (exactly when
provided) strictly before starting the timing animation of `isFocused` toward
1 over 300 time-units, and leaves that animation pending; on a blur event it
invokes `onBlur` (exactly when provided) strictly before starting the timing
animation toward 0 over the same duration. -/
theorem focus_blur_callback_then_animation :
    ∀ (p : SearchBarProps) (s : SearchBarState),
      (p.onFocus = true →
        (onInputFocus p s).2 = [Event.callOnFocus, Event.startAnim 1 300])
    ∧ (p.onFocus = false → (onInputFocus p s).2 = [Event.startAnim 1 300])
    ∧ (onInputFocus p s).1.isFocused.pending = some (1, 300)
    ∧ (p.onBlur = true →
        (onInputBlur p s).2 = [Event.callOnBlur, Event.startAnim 0 300])
    ∧ (p.onBlur = false → (onInputBlur p s).2 = [Event.startAnim 0 300])
    ∧ (onInputBlur p s).1.isFocused.pending = some (0, 300) := by
  intro p s
  refine ⟨fun h => ?_, fun h => ?_, rfl, fun h => ?_, fun h => ?_, rfl⟩ <;>
    simp [onInputFocus, onInputBlur, optCall, h]

/-- Witness for C5 at concrete props providing both callbacks. -/
theorem focus_blur_callback_then_animation_witness :
    (onInputFocus (mkProps none) initialState).2 =
      [Event.callOnFocus, Event.startAnim 1 300]
    ∧ (onInputBlur (mkProps none) initialState).2 =
      [Event.callOnBlur, Event.startAnim 0 300] :=
  ⟨(focus_blur_callback_then_animation (mkProps none) initialState).1 rfl,
   (focus_blur_callback_then_animation (mkProps none) initialState).2.2.2.1 rfl⟩

/-! ### C6: clear presses change nothing but the text -/

/-- C6.  A press of the clear affordance calls `onChangeText(absent)` exactly
once, never calls `onCancel`, issues no focus or blur request, and leaves the
widget state — `isFocused` and the text field's focus included — unchanged. -/
theorem clear_press_frame :
    ∀ (p : SearchBarProps) (s : SearchBarState),
      (onPressClear p s).1 = s
    ∧ (onPressClear p s).2.count (Event.changeText none) = 1
    ∧ Event.callOnCancel ∉ (onPressClear p s).2
    ∧ Event.blurRequest ∉ (onPressClear p s).2
    ∧ Event.focusRequest ∉ (onPressClear p s).2 := by
  intro p s
  refine ⟨rfl, ?_, ?_, ?_, ?_⟩
  · show List.count (Event.changeText none) [Event.changeText none] = 1
    decide
  · show Event.callOnCancel ∉ [Event.changeText none]
    decide
  · show Event.blurRequest ∉ [Event.changeText none]
    decide
  · show Event.focusRequest ∉ [Event.changeText none]
    decide

/-! ### C7: the wrapper is hidden until the container is measured -/

/-- C7.  The wrapper's opacity is 0 exactly while the measured container width
is zero — including the initial state, before the first layout pass — and 1 as
soon as it is non-zero. -/
theorem wrapper_opacity_hides_unmeasured :
    wrapperOpacity 0 = 0
    ∧ (∀ cw : ℚ, cw ≠ 0 → wrapperOpacity cw = 1)
    ∧ wrapperOpacity initialState.containerWidth = 0
    ∧ wrapperOpacity (onLayout 300 initialState).containerWidth = 1 := by
  refine ⟨rfl, fun cw h => by simp [wrapperOpacity, h], rfl, by decide⟩

/-- Witness for C7 at the concrete width 300. -/
theorem wrapper_opacity_hides_unmeasured_witness :
    (300 : ℚ) ≠ 0 ∧ wrapperOpacity 300 = 1 :=
  ⟨by norm_num, wrapper_opacity_hides_unmeasured.2.1 300 (by norm_num)⟩

/-! ### C8: the last focus/blur transition wins once settled -/

/-- C8.  After any sequence of focus/blur events, once the pending animation
settles, `isFocused` equals the target of the last transition (1 after a final
focus, 0 after a final blur), nothing stays in flight, and at the settled
value the effective width is `containerWidth - cancelButtonWidth - 10` after a
focus and the full `containerWidth` after a blur; a transition started while
another is in flight replaces it. -/
theorem focus_blur_last_transition_wins :
    ∀ (p : SearchBarProps) (s : SearchBarState) (evs : List FocusEvent)
      (e : FocusEvent),
      (settle (runFocus p s (evs ++ [e])).isFocused).val = targetOf e
    ∧ (settle (runFocus p s (evs ++ [e])).isFocused).pending = none
    ∧ effectiveWidth (runFocus p s (evs ++ [e])).containerWidth
        (runFocus p s (evs ++ [e])).cancelButtonWidth (targetOf e)
        = (match e with
           | FocusEvent.focus =>
               (runFocus p s (evs ++ [e])).containerWidth
                 - (runFocus p s (evs ++ [e])).cancelButtonWidth - 10
           | FocusEvent.blur => (runFocus p s (evs ++ [e])).containerWidth)
    ∧ (∀ e₁ e₂ : FocusEvent,
        (stepFocus p (stepFocus p s e₁) e₂).isFocused.pending
          = (stepFocus p s e₂).isFocused.pending) := by
  intro p s evs e
  rw [runFocus_append_single]
  refine ⟨?_, ?_, ?_, ?_⟩
  · cases e <;>
      simp [stepFocus, onInputFocus, onInputBlur, withTiming, settle, targetOf]
  · cases e <;>
      simp [stepFocus, onInputFocus, onInputBlur, withTiming, settle]
  · cases e
    · simpa [targetOf] using
        effectiveWidth_at_one (stepFocus p (runFocus p s evs) FocusEvent.focus).containerWidth
          (stepFocus p (runFocus p s evs) FocusEvent.focus).cancelButtonWidth
    · simpa [targetOf] using
        effectiveWidth_at_zero (stepFocus p (runFocus p s evs) FocusEvent.blur).containerWidth
          (stepFocus p (runFocus p s evs) FocusEvent.blur).cancelButtonWidth
  · intro e₁ e₂
    cases e₁ <;> cases e₂ <;>
      simp [stepFocus, onInputFocus, onInputBlur, withTiming]

/-! ### C9: optional callbacks are safe to omit -/

/-- C9.  Every handler that uses an optional callback is safe when that
callback is absent: the handler is a total function of the state and emits no
invocation of an absent `onFocus`, `onBlur`, `onCancel`, or
`onSubmitEditing`. -/
theorem optional_callbacks_safe :
    ∀ (p : SearchBarProps) (s : SearchBarState),
      (p.onFocus = false → Event.callOnFocus ∉ (onInputFocus p s).2)
    ∧ (p.onBlur = false → Event.callOnBlur ∉ (onInputBlur p s).2)
    ∧ (p.onCancel = false → Event.callOnCancel ∉ (onPressCancel p s).2)
    ∧ (p.onSubmitEditing = false →
        Event.callOnSubmit ∉ (onSubmitForward p s).2) := by
  intro p s
  refine ⟨fun h => ?_, fun h => ?_, fun h => ?_, fun h => ?_⟩ <;>
    simp [onInputFocus, onInputBlur, onPressCancel, onSubmitForward, optCall, h]

/-- Witness for C9 at props providing no optional callback. -/
theorem optional_callbacks_safe_witness :
    (noCallbackProps.onFocus = false
      ∧ Event.callOnFocus ∉ (onInputFocus noCallbackProps initialState).2)
    ∧ (noCallbackProps.onCancel = false
      ∧ Event.callOnCancel ∉ (onPressCancel noCallbackProps initialState).2) :=
  ⟨⟨rfl, (optional_callbacks_safe noCallbackProps initialState).1 rfl⟩,
   ⟨rfl, (optional_callbacks_safe noCallbackProps initialState).2.2.1 rfl⟩⟩

/-! ### C10: the animationDuration prop is inert -/

/-- C10.  The `animationDuration` prop has no effect: every render condition
and every handler of two props records differing only in `animationDuration`
produce identical outputs (states and event traces), and the only animation
ever started by the focus and blur handlers has duration 300. -/
theorem animation_duration_unused :
    ∀ (p : SearchBarProps) (d : Option Nat) (s : SearchBarState),
      clearRendered { p with animationDuration := d } = clearRendered p
    ∧ onPressClear { p with animationDuration := d } s = onPressClear p s
    ∧ onPressCancel { p with animationDuration := d } s = onPressCancel p s
    ∧ onInputFocus { p with animationDuration := d } s = onInputFocus p s
    ∧ onInputBlur { p with animationDuration := d } s = onInputBlur p s
    ∧ onSubmitForward { p with animationDuration := d } s = onSubmitForward p s
    ∧ (onInputFocus p s).2.filter isStartAnim = [Event.startAnim 1 300]
    ∧ (onInputBlur p s).2.filter isStartAnim = [Event.startAnim 0 300] := by
  intro p d s
  refine ⟨rfl, rfl, rfl, rfl, rfl, rfl, ?_, ?_⟩ <;>
    cases hf : p.onFocus <;> cases hb : p.onBlur <;>
      simp [onInputFocus, onInputBlur, optCall, isStartAnim, hf, hb]
